import Mathlib

/-!
Verification of the VonageGoSDK core against its specification.

The Go source is embedded shallowly:
* machine time (`time.Time` / `UnixNano`) is a `Nat` parameter threaded
  explicitly through every operation that reads the clock;
* the remote HTTP interaction inside `createSessionViaAPI` is abstracted as
  an `Except String CreateSessionResponse` argument (the already-parsed
  response or the transport/parse error), and the pure tail of the Go
  function is kept;
* Go maps are modelled as association lists with unique keys, written with
  replace-or-append insertion;
* fallible Go functions returning `(T, error)` become `Except String T`.
-/

namespace VonageSDK

/-! ## Session data model (src/video/types.go) -/

/-- `Session` from src/video/types.go: a cached Vonage video session. -/
structure Session where
  sessionID : String
  spotID : String
  projectID : String
  createdAt : Nat
  expiresAt : Nat
  isMock : Bool
deriving DecidableEq, Repr

/-- `CreateSessionResponse` from src/video/types.go: the parsed body of the
remote session-creation API response. -/
structure CreateSessionResponse where
  session_id : String
  project_id : String
  create_dt : String
  media_server_url : String
deriving DecidableEq, Repr

/-- `DefaultSessionTTL = 24 * time.Hour`, in nanoseconds (the unit of the
`Nat` clock used throughout the session model). -/
def DefaultSessionTTL : Nat := 24 * 60 * 60 * 1000000000

/-- `Session.IsExpired`: `time.Now().After(s.ExpiresAt)`, i.e. strictly past. -/
def Session.IsExpired (now : Nat) (s : Session) : Bool :=
  now > s.expiresAt

/-- `Session.IsValid`: non-empty id and not expired. -/
def Session.IsValid (now : Nat) (s : Session) : Bool :=
  s.sessionID != "" && !(s.IsExpired now)

/-! ## The session cache (src/vonage/video/client.go)

The Go client's `sessions map[string]*Session` is an association list keyed
by session id. Go map iteration order is unspecified; the model fixes list
order, which is sound for the sequential scenarios the claims quantify over. -/

/-- Map assignment `m[k] = v`: replace the binding of `k` or append it. -/
def storeSession : List (String × Session) → String → Session → List (String × Session)
  | [], k, v => [(k, v)]
  | (k', v') :: rest, k, v =>
    if k' = k then (k, v) :: rest else (k', v') :: storeSession rest k v

/-- Map lookup `m[k]`. -/
def lookupSession : List (String × Session) → String → Option Session
  | [], _ => none
  | (k', v') :: rest, k => if k' = k then some v' else lookupSession rest k

/-- The cache scan in `CreateSessionForSpot` / `GetOrCreateSession`:
`for _, session := range c.sessions { if session.SpotID == spotID && session.IsValid() ... }`. -/
def findValidForSpot (now : Nat) (spotID : String) : List (String × Session) → Option Session
  | [] => none
  | (_, s) :: rest =>
    if s.spotID == spotID && s.IsValid now then some s
    else findValidForSpot now spotID rest

/-- The state of `video.Client`: application id, whether a JWT generator was
supplied (`jwtGenerator != nil`), and the session cache. -/
structure ClientState where
  appID : String
  hasJWTGen : Bool
  sessions : List (String × Session)
deriving DecidableEq, Repr

/-- `Client.IsConfigured`: `c.jwtGenerator != nil && c.appID != ""`. -/
def ClientState.IsConfigured (c : ClientState) : Bool :=
  c.hasJWTGen && c.appID != ""

/-- `Client.createMockSession` (src/vonage/video/client.go lines 228-253):
builds a synthetic session id `"mock_" + prefix + "_" + UnixNano`, stamps
`IsMock = true`, caches it under that id and returns it with a nil error. -/
def createMockSession (now : Nat) (c : ClientState) (spotID : String) :
    Except String Session × ClientState :=
  let appIDPart := if c.appID.length ≥ 8 then c.appID.take 8 else "mock"
  let sessionID := "mock_" ++ appIDPart ++ "_" ++ toString now
  let session : Session :=
    { sessionID := sessionID, spotID := spotID, projectID := ""
      createdAt := now, expiresAt := now + DefaultSessionTTL, isMock := true }
  (Except.ok session, { c with sessions := storeSession c.sessions sessionID session })

/-- `Client.createSessionViaAPI` (src/vonage/video/client.go lines 144-225):
the JWT minting, HTTP round-trip and JSON decode are abstracted into the
`apiResult` argument; on success the Go code builds the session record with
`CreatedAt = now` and `ExpiresAt = now + DefaultSessionTTL`, `IsMock` false. -/
def createSessionViaAPI (now : Nat) (apiResult : Except String CreateSessionResponse) :
    Except String Session :=
  match apiResult with
  | Except.error e => Except.error e
  | Except.ok r =>
      Except.ok { sessionID := r.session_id, spotID := "", projectID := r.project_id
                  createdAt := now, expiresAt := now + DefaultSessionTTL, isMock := false }

/-- `Client.CreateSessionForSpot` (src/vonage/video/client.go lines 106-141).
The third component counts how many times the remote creation call
(`createSessionViaAPI`) was invoked (0 or 1). -/
def CreateSessionForSpot (now : Nat) (c : ClientState) (spotID : String)
    (apiResult : Except String CreateSessionResponse) :
    Except String Session × ClientState × Nat :=
  match findValidForSpot now spotID c.sessions with
  | some s => (Except.ok s, c, 0)
  | none =>
    if !c.IsConfigured then
      let (r, c') := createMockSession now c spotID
      (r, c', 0)
    else
      match createSessionViaAPI now apiResult with
      | Except.error _ =>
          let (r, c') := createMockSession now c spotID
          (r, c', 1)
      | Except.ok s0 =>
          let s := { s0 with spotID := spotID }
          (Except.ok s, { c with sessions := storeSession c.sessions s.sessionID s }, 1)

/-- `Client.GetOrCreateSession` (src/vonage/video/client.go lines 273-285):
cache scan, then defer to `CreateSessionForSpot`. -/
def GetOrCreateSession (now : Nat) (c : ClientState) (spotID : String)
    (apiResult : Except String CreateSessionResponse) :
    Except String Session × ClientState × Nat :=
  match findValidForSpot now spotID c.sessions with
  | some s => (Except.ok s, c, 0)
  | none => CreateSessionForSpot now c spotID apiResult

/-- The loop body of `Client.CleanupExpiredSessions`: delete every expired
record, counting deletions. -/
def cleanupLoop (now : Nat) : List (String × Session) → List (String × Session) × Nat
  | [] => ([], 0)
  | p :: rest =>
    let (r, n) := cleanupLoop now rest
    if p.2.IsExpired now then (r, n + 1) else (p :: r, n)

/-- `Client.CleanupExpiredSessions` (src/vonage/video/client.go lines 288-305):
removes every expired record under the write lock and returns the count. -/
def CleanupExpiredSessions (now : Nat) (c : ClientState) : Nat × ClientState :=
  let (remaining, count) := cleanupLoop now c.sessions
  (count, { c with sessions := remaining })

/-! ### Cache lemmas -/

theorem lookupSession_storeSession (m : List (String × Session)) (k : String) (v : Session) :
    lookupSession (storeSession m k v) k = some v := by
  induction m with
  | nil => simp [storeSession, lookupSession]
  | cons p rest ih =>
      obtain ⟨k', v'⟩ := p
      by_cases h : k' = k
      · simp [storeSession, lookupSession, h]
      · simp [storeSession, lookupSession, h, ih]

theorem cleanupLoop_spec (now : Nat) (l : List (String × Session)) :
    cleanupLoop now l =
      (l.filter (fun p => !(p.2.IsExpired now)),
       (l.filter (fun p => p.2.IsExpired now)).length) := by
  induction l with
  | nil => simp [cleanupLoop]
  | cons p rest ih =>
      by_cases h : p.2.IsExpired now = true
      · simp [cleanupLoop, ih, h, List.filter]
      · simp only [Bool.not_eq_true] at h
        simp [cleanupLoop, ih, h, List.filter]

/-! ### Claim C1: failing creation callback yields a cached synthetic session -/

/-- C1: for every topic key on the cache-miss path, `CreateSessionForSpot`
with a failing creation callback returns `Except.ok` (never the callback's
error) carrying a record with `isMock = true`, and that synthetic record is
inserted into the cache under its sessionId like a successfully created one. -/
theorem createSessionForSpot_failing_callback_returns_mock
    (now : Nat) (c : ClientState) (spotID : String) (e : String)
    (hmiss : findValidForSpot now spotID c.sessions = none) :
    ∃ s c' n,
      CreateSessionForSpot now c spotID (Except.error e) = (Except.ok s, c', n)
      ∧ s.isMock = true
      ∧ lookupSession c'.sessions s.sessionID = some s := by
  unfold CreateSessionForSpot
  rw [hmiss]
  by_cases hc : c.IsConfigured = true
  · simp only [hc, Bool.not_true, Bool.false_eq_true, if_false]
    exact ⟨_, _, 1, rfl, rfl, lookupSession_storeSession _ _ _⟩
  · simp only [Bool.not_eq_true] at hc
    simp only [hc, Bool.not_false, if_true]
    exact ⟨_, _, 0, rfl, rfl, lookupSession_storeSession _ _ _⟩

/-- Witness for C1: a concrete unseen topic on a configured client with a
failing remote call. -/
theorem createSessionForSpot_failing_callback_witness :
    ∃ s c' n,
      CreateSessionForSpot 7 { appID := "app-id-123", hasJWTGen := true, sessions := [] }
          "spot-A" (Except.error "remote down") = (Except.ok s, c', n)
      ∧ s.isMock = true
      ∧ lookupSession c'.sessions s.sessionID = some s :=
  createSessionForSpot_failing_callback_returns_mock 7
    { appID := "app-id-123", hasJWTGen := true, sessions := [] } "spot-A" "remote down" rfl

/-! ### Claim C2: two sequential lookups reuse the created session -/

/-- C2: starting from an empty cache on a configured client, calling
`GetOrCreateSession` twice in sequence for the same topic with a successful
creation callback returns the identical sessionId both times and invokes the
remote creation call exactly once (1 on the first call, 0 on the second); the
second call hits the cached non-expired record carrying that topic key. -/
theorem getOrCreateSession_twice_single_creation
    (now₁ now₂ : Nat) (c0 : ClientState) (spotID : String)
    (resp : CreateSessionResponse) (api2 : Except String CreateSessionResponse)
    (hempty : c0.sessions = [])
    (hconf : c0.IsConfigured = true)
    (hid : resp.session_id ≠ "")
    (hfresh : now₂ ≤ now₁ + DefaultSessionTTL) :
    ∃ s c1,
      GetOrCreateSession now₁ c0 spotID (Except.ok resp) = (Except.ok s, c1, 1)
      ∧ GetOrCreateSession now₂ c1 spotID api2 = (Except.ok s, c1, 0)
      ∧ s.sessionID = resp.session_id := by
  have hexp : ¬ (now₁ + DefaultSessionTTL < now₂) := Nat.not_lt.mpr hfresh
  refine ⟨{ sessionID := resp.session_id, spotID := spotID, projectID := resp.project_id,
            createdAt := now₁, expiresAt := now₁ + DefaultSessionTTL, isMock := false },
          { c0 with sessions :=
              [(resp.session_id,
                { sessionID := resp.session_id, spotID := spotID,
                  projectID := resp.project_id, createdAt := now₁,
                  expiresAt := now₁ + DefaultSessionTTL, isMock := false })] },
          ?_, ?_, rfl⟩
  · simp [GetOrCreateSession, CreateSessionForSpot, findValidForSpot, hempty, hconf,
      createSessionViaAPI, storeSession]
  · simp [GetOrCreateSession, findValidForSpot, Session.IsValid, Session.IsExpired,
      hid, hexp]

/-- Witness for C2: concrete client, topic and response. -/
theorem getOrCreateSession_twice_witness :
    ∃ s c1,
      GetOrCreateSession 10 { appID := "app", hasJWTGen := true, sessions := [] } "spot-A"
          (Except.ok { session_id := "sid1", project_id := "p1",
                       create_dt := "", media_server_url := "" }) = (Except.ok s, c1, 1)
      ∧ GetOrCreateSession 20 c1 "spot-A" (Except.error "down") = (Except.ok s, c1, 0)
      ∧ s.sessionID = "sid1" :=
  getOrCreateSession_twice_single_creation 10 20
    { appID := "app", hasJWTGen := true, sessions := [] } "spot-A"
    { session_id := "sid1", project_id := "p1", create_dt := "", media_server_url := "" }
    (Except.error "down") rfl rfl (by decide) (by decide)

/-! ### Claim C8: sweep removes exactly the expired records -/

/-- C8: `CleanupExpiredSessions` removes exactly the records with
`now > expiresAt`, leaves every other record unchanged (in place), returns
the number removed, and returns 0 on an empty cache. -/
theorem cleanupExpiredSessions_spec (now : Nat) (c : ClientState) :
    (CleanupExpiredSessions now c).2.sessions
        = c.sessions.filter (fun p => !(p.2.IsExpired now))
    ∧ (CleanupExpiredSessions now c).1
        = (c.sessions.filter (fun p => p.2.IsExpired now)).length
    ∧ (c.sessions = [] → (CleanupExpiredSessions now c).1 = 0) := by
  refine ⟨?_, ?_, ?_⟩
  · simp [CleanupExpiredSessions, cleanupLoop_spec]
  · simp [CleanupExpiredSessions, cleanupLoop_spec]
  · intro h
    simp [CleanupExpiredSessions, cleanupLoop_spec, h]

/-- Witness for C8: sweeping an empty registry returns 0. -/
theorem cleanupExpiredSessions_witness :
    (CleanupExpiredSessions 5 { appID := "", hasJWTGen := false, sessions := [] }).1 = 0 :=
  (cleanupExpiredSessions_spec 5 { appID := "", hasJWTGen := false, sessions := [] }).2.2 rfl

/-! ## JWT generation (src/unnamed/part_000, `GenerateJWT`)

Claim values (`interface{}`) are modelled by `ClaimValue`; a claim map
(`jwt.MapClaims` / `JWTClaims`) by an association list with map-insertion
semantics. The clock is `time.Now().Unix()` in seconds, passed explicitly,
and the `uuid.New().String()` uniqueness marker is an explicit parameter.
The RSA signing step is external crypto; the model returns the claim set
that the signed token encodes. -/

/-- A JSON-encodable claim value (`interface{}` in the Go claim maps). -/
inductive ClaimValue
  | int (n : Int)
  | str (s : String)
deriving DecidableEq, Repr

/-- An RSA private key, kept abstract: only its presence matters to the
control flow of `GenerateJWT`. -/
structure RSAPrivateKey where
deriving DecidableEq, Repr

/-- `JWTGenerator` from src/unnamed/part_000: application id plus optional
private key (`privateKey == nil` is `none`). -/
structure JWTGenerator where
  appID : String
  privateKey : Option RSAPrivateKey
deriving DecidableEq, Repr

/-- Go map assignment `claims[k] = v`: replace the binding or append it. -/
def claimInsert : List (String × ClaimValue) → String → ClaimValue → List (String × ClaimValue)
  | [], k, v => [(k, v)]
  | (k', v') :: rest, k, v =>
    if k' = k then (k, v) :: rest else (k', v') :: claimInsert rest k v

/-- Go map read `claims[k]`. -/
def claimLookup : List (String × ClaimValue) → String → Option ClaimValue
  | [], _ => none
  | (k', v') :: rest, k => if k' = k then some v' else claimLookup rest k

/-- `JWTGenerator.GenerateJWT` (src/unnamed/part_000 lines 133-158): error if
the private key is absent; otherwise the claim set is
`iat = now, exp = now + ttl, jti = marker, application_id = appID`, with
`additionalClaims` merged on top (`for k, v := range additionalClaims`). -/
def GenerateJWT (g : JWTGenerator) (now : Int) (jti : String) (ttl : Int)
    (additionalClaims : List (String × ClaimValue)) :
    Except String (List (String × ClaimValue)) :=
  match g.privateKey with
  | none => Except.error "private key not configured"
  | some _ =>
    let claims : List (String × ClaimValue) :=
      [("iat", ClaimValue.int now),
       ("exp", ClaimValue.int (now + ttl)),
       ("jti", ClaimValue.str jti),
       ("application_id", ClaimValue.str g.appID)]
    Except.ok (additionalClaims.foldl (fun m p => claimInsert m p.1 p.2) claims)

/-- `JWTGenerator.GenerateAPIJWT`: five-minute ttl (in seconds), no extra
claims. -/
def GenerateAPIJWT (g : JWTGenerator) (now : Int) (jti : String) :
    Except String (List (String × ClaimValue)) :=
  GenerateJWT g now jti (5 * 60) []

/-! ### Claim-map lemmas -/

theorem claimLookup_claimInsert_self (m : List (String × ClaimValue)) (k : String)
    (v : ClaimValue) : claimLookup (claimInsert m k v) k = some v := by
  induction m with
  | nil => simp [claimInsert, claimLookup]
  | cons p rest ih =>
      obtain ⟨k', v'⟩ := p
      by_cases h : k' = k
      · simp [claimInsert, claimLookup, h]
      · simp [claimInsert, claimLookup, h, ih]

theorem claimLookup_claimInsert_ne (m : List (String × ClaimValue)) (k k' : String)
    (v : ClaimValue) (h : k' ≠ k) :
    claimLookup (claimInsert m k v) k' = claimLookup m k' := by
  have h' : ¬ (k = k') := fun he => h he.symm
  induction m with
  | nil => simp [claimInsert, claimLookup, h']
  | cons p rest ih =>
      obtain ⟨k₀, v₀⟩ := p
      by_cases h0 : k₀ = k
      · subst h0
        simp [claimInsert, claimLookup, h']
      · simp [claimInsert, claimLookup, h0, ih]

theorem claimLookup_foldl_not_mem (extra : List (String × ClaimValue))
    (m : List (String × ClaimValue)) (k : String)
    (h : k ∉ extra.map Prod.fst) :
    claimLookup (extra.foldl (fun m p => claimInsert m p.1 p.2) m) k = claimLookup m k := by
  induction extra generalizing m with
  | nil => rfl
  | cons p rest ih =>
      simp only [List.map_cons, List.mem_cons] at h
      push_neg at h
      rw [List.foldl_cons, ih _ h.2, claimLookup_claimInsert_ne _ _ _ _ h.1]

theorem claimLookup_foldl_mem (extra : List (String × ClaimValue))
    (m : List (String × ClaimValue)) (k : String) (v : ClaimValue)
    (hnd : (extra.map Prod.fst).Nodup) (hmem : (k, v) ∈ extra) :
    claimLookup (extra.foldl (fun m p => claimInsert m p.1 p.2) m) k = some v := by
  induction extra generalizing m with
  | nil => cases hmem
  | cons p rest ih =>
      simp only [List.map_cons, List.nodup_cons] at hnd
      rcases List.mem_cons.mp hmem with hp | hrest
      · subst hp
        rw [List.foldl_cons, claimLookup_foldl_not_mem _ _ _ hnd.1,
          claimLookup_claimInsert_self]
      · rw [List.foldl_cons]
        exact ih _ hnd.2 hrest

/-! ### Claim C3: the minted claim set -/

/-- C3: with the signing key present, `GenerateJWT` succeeds with a claim set
in which — unless overridden — `iat` is the current time, `exp` is
`iat + ttl`, and `application_id` is the configured application id; and every
caller-supplied extra claim is merged last, so a caller claim sharing a
standard claim's name overwrites the standard value. -/
theorem generateJWT_claim_set
    (g : JWTGenerator) (now : Int) (jti : String) (ttl : Int)
    (extra : List (String × ClaimValue)) (k : RSAPrivateKey)
    (hkey : g.privateKey = some k)
    (hnd : (extra.map Prod.fst).Nodup) :
    ∃ cs, GenerateJWT g now jti ttl extra = Except.ok cs
      ∧ ("iat" ∉ extra.map Prod.fst → claimLookup cs "iat" = some (ClaimValue.int now))
      ∧ ("exp" ∉ extra.map Prod.fst →
            claimLookup cs "exp" = some (ClaimValue.int (now + ttl)))
      ∧ ("application_id" ∉ extra.map Prod.fst →
            claimLookup cs "application_id" = some (ClaimValue.str g.appID))
      ∧ (∀ key v, (key, v) ∈ extra → claimLookup cs key = some v) := by
  refine ⟨_, by rw [GenerateJWT, hkey], ?_, ?_, ?_, ?_⟩
  · intro h
    rw [claimLookup_foldl_not_mem _ _ _ h]
    rfl
  · intro h
    rw [claimLookup_foldl_not_mem _ _ _ h]
    rfl
  · intro h
    rw [claimLookup_foldl_not_mem _ _ _ h]
    rfl
  · intro key v hmem
    exact claimLookup_foldl_mem _ _ _ _ hnd hmem

/-- Witness for C3: a concrete generator, ttl of 300 s and an extra claim
`acl` plus an `exp` override, showing the standard values and the overwrite. -/
theorem generateJWT_claim_set_witness :
    ∃ cs, GenerateJWT { appID := "app-1", privateKey := some {} } 1000 "uuid-1" 300
        [("acl", ClaimValue.str "paths"), ("exp", ClaimValue.int 9999)] = Except.ok cs
      ∧ claimLookup cs "iat" = some (ClaimValue.int 1000)
      ∧ claimLookup cs "application_id" = some (ClaimValue.str "app-1")
      ∧ claimLookup cs "acl" = some (ClaimValue.str "paths")
      ∧ claimLookup cs "exp" = some (ClaimValue.int 9999) := by
  obtain ⟨cs, hok, hiat, _, happ, hov⟩ :=
    generateJWT_claim_set { appID := "app-1", privateKey := some {} } 1000 "uuid-1" 300
      [("acl", ClaimValue.str "paths"), ("exp", ClaimValue.int 9999)] {}
      rfl (by decide)
  exact ⟨cs, hok, hiat (by decide), happ (by decide),
    hov "acl" (ClaimValue.str "paths") (by decide),
    hov "exp" (ClaimValue.int 9999) (by decide)⟩

/-! ### Claim C4: expiry strictly after issuance -/

/-- C4 counterexample: `GenerateJWT` accepts `ttl = 0`, returning a token
whose `exp` equals its `iat` (1000 = 1000, not strictly greater); and an
extra claim named `exp` can push the expiry below `iat`. -/
theorem generateJWT_expiry_counterexample :
    (∃ cs, GenerateJWT { appID := "app-1", privateKey := some {} } 1000 "u1" 0 []
        = Except.ok cs
      ∧ claimLookup cs "iat" = some (ClaimValue.int 1000)
      ∧ claimLookup cs "exp" = some (ClaimValue.int 1000))
    ∧ (∃ cs, GenerateJWT { appID := "app-1", privateKey := some {} } 1000 "u1" 300
          [("exp", ClaimValue.int 0)] = Except.ok cs
      ∧ claimLookup cs "iat" = some (ClaimValue.int 1000)
      ∧ claimLookup cs "exp" = some (ClaimValue.int 0))
    ∧ ¬ ((1000 : Int) < 1000) ∧ ((0 : Int) < 1000) :=
  ⟨⟨_, rfl, rfl, rfl⟩, ⟨_, rfl, rfl, rfl⟩, by decide, by decide⟩

/-- C4 amended: for every mint with a strictly positive ttl whose extra
claims override neither `iat` nor `exp`, the resulting token's `exp` claim is
strictly greater than its `iat` claim. -/
theorem generateJWT_expiry_positive
    (g : JWTGenerator) (now : Int) (jti : String) (ttl : Int)
    (extra : List (String × ClaimValue)) (k : RSAPrivateKey)
    (hkey : g.privateKey = some k) (httl : 0 < ttl)
    (hiat : "iat" ∉ extra.map Prod.fst) (hexp : "exp" ∉ extra.map Prod.fst) :
    ∃ cs i e, GenerateJWT g now jti ttl extra = Except.ok cs
      ∧ claimLookup cs "iat" = some (ClaimValue.int i)
      ∧ claimLookup cs "exp" = some (ClaimValue.int e)
      ∧ i < e := by
  refine ⟨_, now, now + ttl, by rw [GenerateJWT, hkey], ?_, ?_, by omega⟩
  · rw [claimLookup_foldl_not_mem _ _ _ hiat]
    rfl
  · rw [claimLookup_foldl_not_mem _ _ _ hexp]
    rfl

/-- Witness for the amended C4 at a concrete generator, ttl and claim map. -/
theorem generateJWT_expiry_positive_witness :
    ∃ cs i e, GenerateJWT { appID := "a", privateKey := some {} } 50 "u" 300
        [("acl", ClaimValue.str "x")] = Except.ok cs
      ∧ claimLookup cs "iat" = some (ClaimValue.int i)
      ∧ claimLookup cs "exp" = some (ClaimValue.int e)
      ∧ i < e :=
  generateJWT_expiry_positive { appID := "a", privateKey := some {} } 50 "u" 300
    [("acl", ClaimValue.str "x")] {} rfl (by decide) (by decide) (by decide)

/-! ## Inbound messages (src/pkg/vonage/messages/types.go)

`time.Time` fields are modelled as the raw timestamp text; the canonical
`InboundMessage.timestamp` left at its zero value is the empty string.
`from` is a Lean keyword, so the Go field `From` is written `from'`. -/

/-- `Channel` constant `ChannelSMS = "sms"`. -/
def ChannelSMS : String := "sms"

/-- `InboundMedia`: media attached to an inbound message. -/
structure InboundMedia where
  url : String
  caption : String
  name : String
deriving DecidableEq, Repr

/-- `InboundMessage`: the canonical (Messages API v1) inbound shape. -/
structure InboundMessage where
  messageUUID : String
  from' : String
  to' : String
  timestamp : String
  channel : String
  messageType : String
  text : String
  image : Option InboundMedia
  audio : Option InboundMedia
  video : Option InboundMedia
  file : Option InboundMedia
deriving DecidableEq, Repr

/-- `InboundSMS`: the legacy inbound SMS webhook shape. `typ` is the Go
field `Type` (a Lean keyword). -/
structure InboundSMS where
  msisdn : String
  to' : String
  messageId : String
  text : String
  timestamp : String
  typ : String
  keyword : String
deriving DecidableEq, Repr

/-- `InboundSMS.ToInboundMessage` (src/pkg/vonage/messages/types.go lines
136-145): sets exactly `MessageUUID, From, To, Channel, MessageType, Text`;
the remaining canonical fields stay at their zero values. -/
def InboundSMS.ToInboundMessage (s : InboundSMS) : InboundMessage :=
  { messageUUID := s.messageId
    from' := s.msisdn
    to' := s.to'
    timestamp := ""
    channel := ChannelSMS
    messageType := "text"
    text := s.text
    image := none
    audio := none
    video := none
    file := none }

/-! ### Claim C5: the legacy-to-canonical conversion -/

/-- C5 counterexample: two legacy payloads that differ only in the
`message-timestamp` field convert to the same canonical message, so the
conversion is not lossless for that field. -/
theorem toInboundMessage_drops_timestamp :
    InboundSMS.ToInboundMessage
        { msisdn := "819", to' := "815", messageId := "m1", text := "hi",
          timestamp := "2025-01-01 10:00:00", typ := "", keyword := "" }
      = InboundSMS.ToInboundMessage
        { msisdn := "819", to' := "815", messageId := "m1", text := "hi",
          timestamp := "2026-02-02 12:34:56", typ := "", keyword := "" }
    ∧ ("2025-01-01 10:00:00" : String) ≠ "2026-02-02 12:34:56" :=
  ⟨rfl, by decide⟩

/-- C5 amended: the conversion maps legacy `messageId` to canonical
`messageUUID`, the subscriber number `msisdn` to canonical `from`, copies
`to` and `text`, fixes the channel to SMS and the content type to text, and
leaves the media fields unset; the legacy `message-timestamp` (with `type`
and `keyword`) is dropped, leaving the canonical timestamp unset. -/
theorem toInboundMessage_field_map (s : InboundSMS) :
    (s.ToInboundMessage).messageUUID = s.messageId
    ∧ (s.ToInboundMessage).from' = s.msisdn
    ∧ (s.ToInboundMessage).to' = s.to'
    ∧ (s.ToInboundMessage).channel = ChannelSMS
    ∧ (s.ToInboundMessage).messageType = "text"
    ∧ (s.ToInboundMessage).text = s.text
    ∧ (s.ToInboundMessage).timestamp = ""
    ∧ (s.ToInboundMessage).image = none
    ∧ (s.ToInboundMessage).audio = none
    ∧ (s.ToInboundMessage).video = none
    ∧ (s.ToInboundMessage).file = none :=
  ⟨rfl, rfl, rfl, rfl, rfl, rfl, rfl, rfl, rfl, rfl, rfl⟩

/-! ## Webhook payload parsing (src/pkg/vonage/messages/webhook.go)

The raw byte payload is modelled after Go's `encoding/json` has tokenized
it: a `Json` value. `json.Unmarshal` into each struct is embedded directly:
an unknown field is ignored, a missing or null field leaves the zero value,
and a field of the wrong shape is an unmarshal error. The RFC3339 validation
Go applies to `time.Time` fields is elided (any JSON string is accepted
there); the dispatch the claims concern does not depend on it. -/

/-- A parsed JSON document. -/
inductive Json
  | null
  | bool (b : Bool)
  | num (n : Int)
  | str (s : String)
  | arr (elems : List Json)
  | obj (fields : List (String × Json))

/-- Object field access (Go JSON objects have unique keys). -/
def jsonGet : List (String × Json) → String → Option Json
  | [], _ => none
  | (k', v) :: rest, k => if k' = k then some v else jsonGet rest k

/-- Unmarshal one string-typed struct field: missing or null leaves the zero
value `""`; a non-string JSON value is an error. -/
def getStr (fields : List (String × Json)) (k : String) : Except String String :=
  match jsonGet fields k with
  | none => Except.ok ""
  | some Json.null => Except.ok ""
  | some (Json.str s) => Except.ok s
  | some _ => Except.error "json: cannot unmarshal field into Go value of type string"

/-- Unmarshal one `*InboundMedia` struct field: missing or null leaves `nil`;
an object is unmarshalled field-wise; anything else is an error. -/
def getMedia (fields : List (String × Json)) (k : String) :
    Except String (Option InboundMedia) :=
  match jsonGet fields k with
  | none => Except.ok none
  | some Json.null => Except.ok none
  | some (Json.obj mf) => do
      let url ← getStr mf "url"
      let caption ← getStr mf "caption"
      let name ← getStr mf "name"
      Except.ok (some { url := url, caption := caption, name := name })
  | some _ => Except.error "json: cannot unmarshal field into Go value of type InboundMedia"

/-- `json.Unmarshal(body, &msg)` for `InboundMessage`. -/
def unmarshalInboundMessage (j : Json) : Except String InboundMessage :=
  match j with
  | Json.obj fields => do
      let messageUUID ← getStr fields "message_uuid"
      let from' ← getStr fields "from"
      let to' ← getStr fields "to"
      let timestamp ← getStr fields "timestamp"
      let channel ← getStr fields "channel"
      let messageType ← getStr fields "message_type"
      let text ← getStr fields "text"
      let image ← getMedia fields "image"
      let audio ← getMedia fields "audio"
      let video ← getMedia fields "video"
      let file ← getMedia fields "file"
      Except.ok { messageUUID := messageUUID, from' := from', to' := to',
                  timestamp := timestamp, channel := channel,
                  messageType := messageType, text := text,
                  image := image, audio := audio, video := video, file := file }
  | _ => Except.error "json: cannot unmarshal value into Go value of type InboundMessage"

/-- `json.Unmarshal(body, &sms)` for the legacy `InboundSMS`. -/
def unmarshalInboundSMS (j : Json) : Except String InboundSMS :=
  match j with
  | Json.obj fields => do
      let msisdn ← getStr fields "msisdn"
      let to' ← getStr fields "to"
      let messageId ← getStr fields "messageId"
      let text ← getStr fields "text"
      let timestamp ← getStr fields "message-timestamp"
      let typ ← getStr fields "type"
      let keyword ← getStr fields "keyword"
      Except.ok { msisdn := msisdn, to' := to', messageId := messageId,
                  text := text, timestamp := timestamp, typ := typ,
                  keyword := keyword }
  | _ => Except.error "json: cannot unmarshal value into Go value of type InboundSMS"

/-- The legacy arm of `ParseInboundMessage`: accept the legacy parse only if
`sms.MSISDN != ""`, else the unrecognized-format error. -/
def parseLegacyFallback (j : Json) : Except String InboundMessage :=
  match unmarshalInboundSMS j with
  | Except.ok sms =>
      if sms.msisdn != "" then Except.ok sms.ToInboundMessage
      else Except.error "unknown inbound message format"
  | Except.error _ => Except.error "unknown inbound message format"

/-- `ParseInboundMessage` (src/pkg/vonage/messages/webhook.go lines 134-148):
try the modern format, accept on non-empty `MessageUUID`; otherwise fall
back to the legacy format. -/
def ParseInboundMessage (j : Json) : Except String InboundMessage :=
  match unmarshalInboundMessage j with
  | Except.ok msg =>
      if msg.messageUUID != "" then Except.ok msg
      else parseLegacyFallback j
  | Except.error _ => parseLegacyFallback j

/-- Detector written from the spec's words: the modern variant matches when
the modern structural parse succeeds and the message identifier is
non-empty. -/
def modernMatches (j : Json) : Bool :=
  match unmarshalInboundMessage j with
  | Except.ok msg => msg.messageUUID != ""
  | Except.error _ => false

/-- Detector written from the spec's words: the legacy variant matches when
the legacy structural parse succeeds and the subscriber number is
non-empty. -/
def legacyMatches (j : Json) : Bool :=
  match unmarshalInboundSMS j with
  | Except.ok sms => sms.msisdn != ""
  | Except.error _ => false

/-! ### Claim C6: format dispatch -/

/-- C6: `ParseInboundMessage` returns the modern parse exactly when the
modern structural parse succeeds with non-empty `message_uuid`; otherwise it
returns the legacy-derived conversion exactly when the legacy parse succeeds
with non-empty `msisdn`; and it fails with the unrecognized-format error
exactly when neither check passes. -/
theorem parseInboundMessage_dispatch (j : Json) :
    (∀ msg, unmarshalInboundMessage j = Except.ok msg → msg.messageUUID ≠ "" →
        ParseInboundMessage j = Except.ok msg)
    ∧ (modernMatches j = false → ∀ sms, unmarshalInboundSMS j = Except.ok sms →
        sms.msisdn ≠ "" → ParseInboundMessage j = Except.ok sms.ToInboundMessage)
    ∧ (modernMatches j = false → legacyMatches j = false →
        ParseInboundMessage j = Except.error "unknown inbound message format") := by
  refine ⟨?_, ?_, ?_⟩
  · intro msg h1 h2
    unfold ParseInboundMessage
    rw [h1]
    simp [h2]
  · intro hm sms h1 h2
    have hfb : parseLegacyFallback j = Except.ok sms.ToInboundMessage := by
      unfold parseLegacyFallback
      rw [h1]
      simp [h2]
    unfold ParseInboundMessage
    unfold modernMatches at hm
    rcases hmm : unmarshalInboundMessage j with e | msg
    · exact hfb
    · rw [hmm] at hm
      simp only [bne_eq_false_iff_eq] at hm
      simp [hm, hfb]
  · intro hm hl
    have hfb : parseLegacyFallback j = Except.error "unknown inbound message format" := by
      unfold parseLegacyFallback
      unfold legacyMatches at hl
      rcases hls : unmarshalInboundSMS j with e | sms
      · rfl
      · rw [hls] at hl
        simp only [bne_eq_false_iff_eq] at hl
        simp [hl]
    unfold ParseInboundMessage
    unfold modernMatches at hm
    rcases hmm : unmarshalInboundMessage j with e | msg
    · exact hfb
    · rw [hmm] at hm
      simp only [bne_eq_false_iff_eq] at hm
      simp [hm, hfb]

/-- Witness for C6: the payload matching neither shape fails with the
unrecognized-format error. -/
theorem parseInboundMessage_dispatch_witness :
    ParseInboundMessage (Json.obj [("foo", Json.str "bar")])
      = Except.error "unknown inbound message format" :=
  (parseInboundMessage_dispatch (Json.obj [("foo", Json.str "bar")])).2.2 rfl rfl

/-! ### Claim C7: payloads matching both formats -/

/-- C7 counterexample: a payload satisfying both required-field checks
(non-empty `message_uuid` and non-empty `msisdn`) is not treated as an error:
`ParseInboundMessage` returns the decoded modern message. -/
theorem parseInboundMessage_both_match_counterexample :
    modernMatches (Json.obj [("message_uuid", Json.str "u1"), ("msisdn", Json.str "819")])
        = true
    ∧ legacyMatches (Json.obj [("message_uuid", Json.str "u1"), ("msisdn", Json.str "819")])
        = true
    ∧ ParseInboundMessage
          (Json.obj [("message_uuid", Json.str "u1"), ("msisdn", Json.str "819")])
        = Except.ok { messageUUID := "u1", from' := "", to' := "", timestamp := "",
                      channel := "", messageType := "", text := "", image := none,
                      audio := none, video := none, file := none } :=
  ⟨rfl, rfl, rfl⟩

/-- C7 amended: for every payload whose modern and legacy required-field
checks both succeed, decode returns the modern-format result — the modern
variant takes priority — and never an error. -/
theorem parseInboundMessage_modern_priority (j : Json)
    (hm : modernMatches j = true) (_hl : legacyMatches j = true) :
    ∃ msg, unmarshalInboundMessage j = Except.ok msg
      ∧ msg.messageUUID ≠ ""
      ∧ ParseInboundMessage j = Except.ok msg := by
  unfold modernMatches at hm
  rcases hmm : unmarshalInboundMessage j with e | msg
  · rw [hmm] at hm
    cases hm
  · rw [hmm] at hm
    simp only [bne_iff_ne, ne_eq] at hm
    refine ⟨msg, rfl, hm, ?_⟩
    unfold ParseInboundMessage
    rw [hmm]
    simp [hm]

/-- Witness for the amended C7 at the both-match payload. -/
theorem parseInboundMessage_modern_priority_witness :
    ∃ msg, unmarshalInboundMessage
          (Json.obj [("message_uuid", Json.str "u1"), ("msisdn", Json.str "819")])
        = Except.ok msg
      ∧ msg.messageUUID ≠ ""
      ∧ ParseInboundMessage
          (Json.obj [("message_uuid", Json.str "u1"), ("msisdn", Json.str "819")])
        = Except.ok msg :=
  parseInboundMessage_modern_priority
    (Json.obj [("message_uuid", Json.str "u1"), ("msisdn", Json.str "819")]) rfl rfl

/-! ## NCCO builder (src/pkg/vonage/voice/ncco.go)

`Action` carries the one flat Go struct shared by all action variants; Go
zero values become `Action.empty`. `float64` timing fields are modelled as
`Int` (the claims never compute with them) and `*bool` as `Option Bool`.
The sub-builders hold their parent by value: the claims only exercise the
linear chained usage, where this agrees with Go's pointer back-reference. -/

/-- `Action`: one NCCO action, all variants flattened as in the Go struct.
`typ` is the Go field `Type` (a Lean keyword). -/
structure Action where
  actionType : String
  text : String
  voiceName : String
  language : String
  style : Int
  premium : Bool
  level : Int
  bargeIn : Option Bool
  loop : Int
  streamURL : List String
  typ : List String
  eventURL : List String
  eventMethod : String
  endOnSilence : Int
  startTimeout : Int
  maxDuration : Int
  maxDigits : Int
  submitOnHash : Bool
  timeOut : Int
  payload : List (String × ClaimValue)
  format : String
  beepStart : Option Bool
  endOnKey : String
  channels : Int
  split : String
deriving DecidableEq, Repr

/-- The Go zero value of `Action`. -/
def Action.empty : Action :=
  { actionType := "", text := "", voiceName := "", language := "", style := 0,
    premium := false, level := 0, bargeIn := none, loop := 0, streamURL := [],
    typ := [], eventURL := [], eventMethod := "", endOnSilence := 0,
    startTimeout := 0, maxDuration := 0, maxDigits := 0, submitOnHash := false,
    timeOut := 0, payload := [], format := "", beepStart := none, endOnKey := "",
    channels := 0, split := "" }

/-- `NCCOBuilder`: the accumulated ordered action sequence. -/
structure NCCOBuilder where
  actions : List Action
deriving DecidableEq, Repr

/-- `NewNCCO()`: an empty program builder. -/
def NewNCCO : NCCOBuilder := { actions := [] }

/-- `NCCOBuilder.Build`: the finished ordered program. -/
def NCCOBuilder.Build (b : NCCOBuilder) : List Action := b.actions

/-- `TalkBuilder`: an in-progress talk action plus its parent builder. -/
structure TalkBuilder where
  parent : NCCOBuilder
  action : Action
deriving DecidableEq, Repr

/-- `NCCOBuilder.Talk`: begin a talk action with the given text. -/
def NCCOBuilder.Talk (b : NCCOBuilder) (text : String) : TalkBuilder :=
  { parent := b, action := { Action.empty with actionType := "talk", text := text } }

/-- `TalkBuilder.Language`: set the language. -/
def TalkBuilder.Language (t : TalkBuilder) (lang : String) : TalkBuilder :=
  { t with action := { t.action with language := lang } }

/-- `TalkBuilder.Done` (src/pkg/vonage/voice/ncco.go lines 152-155): append
the completed talk action to the parent's sequence. -/
def TalkBuilder.Done (t : TalkBuilder) : NCCOBuilder :=
  { t.parent with actions := t.parent.actions ++ [t.action] }

/-- `InputBuilder`: an in-progress input action plus its parent builder. -/
structure InputBuilder where
  parent : NCCOBuilder
  action : Action
deriving DecidableEq, Repr

/-- `NCCOBuilder.Input`: begin an input action. -/
def NCCOBuilder.Input (b : NCCOBuilder) : InputBuilder :=
  { parent := b, action := { Action.empty with actionType := "input" } }

/-- `appendUnique` (src/pkg/vonage/voice/ncco.go lines 426-433): return the
slice unchanged if the item is already present, else append it. -/
def appendUnique : List String → String → List String
  | [], item => [item]
  | s :: rest, item => if s = item then s :: rest else s :: appendUnique rest item

/-- `InputBuilder.Speech` (src/pkg/vonage/voice/ncco.go lines 224-227):
enable speech input via `appendUnique`. -/
def InputBuilder.Speech (i : InputBuilder) : InputBuilder :=
  { i with action := { i.action with typ := appendUnique i.action.typ "speech" } }

/-- `InputBuilder.DTMF`: enable DTMF input via `appendUnique`. -/
def InputBuilder.DTMF (i : InputBuilder) : InputBuilder :=
  { i with action := { i.action with typ := appendUnique i.action.typ "dtmf" } }

/-- `InputBuilder.Done` (src/pkg/vonage/voice/ncco.go lines 290-297): default
the event method to POST if unset, then append the completed input action. -/
def InputBuilder.Done (i : InputBuilder) : NCCOBuilder :=
  let a := if i.action.eventMethod = "" then { i.action with eventMethod := "POST" }
           else i.action
  { i.parent with actions := i.parent.actions ++ [a] }

/-! ### appendUnique lemmas -/

theorem appendUnique_of_mem {l : List String} {x : String} (h : x ∈ l) :
    appendUnique l x = l := by
  induction l with
  | nil => cases h
  | cons s rest ih =>
      by_cases hs : s = x
      · simp [appendUnique, hs]
      · rcases List.mem_cons.mp h with h1 | h2
        · exact absurd h1.symm hs
        · simp [appendUnique, hs, ih h2]

theorem mem_appendUnique (l : List String) (x : String) : x ∈ appendUnique l x := by
  induction l with
  | nil => simp [appendUnique]
  | cons s rest ih =>
      by_cases hs : s = x
      · simp [appendUnique, hs]
      · simp [appendUnique, hs, ih]

theorem appendUnique_of_not_mem {l : List String} {x : String} (h : x ∉ l) :
    appendUnique l x = l ++ [x] := by
  induction l with
  | nil => rfl
  | cons s rest ih =>
      simp only [List.mem_cons] at h
      push_neg at h
      have hs : ¬ (s = x) := fun he => h.1 he.symm
      simp [appendUnique, hs, ih h.2]

theorem count_appendUnique (l : List String) (x : String) :
    (appendUnique l x).count x = max (l.count x) 1 := by
  by_cases h : x ∈ l
  · rw [appendUnique_of_mem h]
    have : 0 < l.count x := List.count_pos_iff.mpr h
    omega
  · rw [appendUnique_of_not_mem h, List.count_append]
    have : l.count x = 0 := List.count_eq_zero.mpr h
    simp [this]

/-! ### Claim C9: a talk-then-input program -/

/-- C9: `Talk(text).Language(lang).Done().Input().Speech().Done().Build()`
yields the ordered two-element program whose first action is the talk and
second the input, in finalization order, the input carrying the default
event method POST because none was set before its finalization. -/
theorem talk_then_input_program (text lang : String) :
    (((((NewNCCO.Talk text).Language lang).Done.Input).Speech).Done).Build
      = [{ Action.empty with actionType := "talk", text := text, language := lang },
         { Action.empty with
             actionType := "input"
             typ := ["speech"]
             eventMethod := "POST" }] :=
  rfl

/-! ### Claim C10: Speech and DTMF are idempotent on the input builder -/

/-- C10: on every input-builder state, `Speech` and `DTMF` are idempotent:
each adds its entry to the action's type list at most once (the entry's
multiplicity after a call is `max` of the previous multiplicity and 1), and
invoking a method again when its entry is already present leaves the builder
unchanged. -/
theorem inputBuilder_speech_dtmf_idempotent (i : InputBuilder) :
    (i.Speech).Speech = i.Speech
    ∧ (i.DTMF).DTMF = i.DTMF
    ∧ ((i.Speech).action.typ.count "speech" = max (i.action.typ.count "speech") 1)
    ∧ ((i.DTMF).action.typ.count "dtmf" = max (i.action.typ.count "dtmf") 1)
    ∧ ("speech" ∈ i.action.typ → i.Speech = i)
    ∧ ("dtmf" ∈ i.action.typ → i.DTMF = i) := by
  refine ⟨?_, ?_, ?_, ?_, ?_, ?_⟩
  · show ({ i with action := { i.action with
        typ := appendUnique (appendUnique i.action.typ "speech") "speech" } } : InputBuilder)
      = { i with action := { i.action with typ := appendUnique i.action.typ "speech" } }
    rw [appendUnique_of_mem (mem_appendUnique _ _)]
  · show ({ i with action := { i.action with
        typ := appendUnique (appendUnique i.action.typ "dtmf") "dtmf" } } : InputBuilder)
      = { i with action := { i.action with typ := appendUnique i.action.typ "dtmf" } }
    rw [appendUnique_of_mem (mem_appendUnique _ _)]
  · exact count_appendUnique _ _
  · exact count_appendUnique _ _
  · intro h
    show ({ i with action := { i.action with
        typ := appendUnique i.action.typ "speech" } } : InputBuilder) = i
    rw [appendUnique_of_mem h]
  · intro h
    show ({ i with action := { i.action with
        typ := appendUnique i.action.typ "dtmf" } } : InputBuilder) = i
    rw [appendUnique_of_mem h]

/-- Witness for C10 at a concrete builder state already carrying both
entries. -/
theorem inputBuilder_idempotent_witness :
    ({ parent := { actions := [] },
       action := { Action.empty with
                     actionType := "input"
                     typ := ["speech", "dtmf"] } } : InputBuilder).Speech
        = { parent := { actions := [] },
            action := { Action.empty with
                          actionType := "input"
                          typ := ["speech", "dtmf"] } }
    ∧ ({ parent := { actions := [] },
         action := { Action.empty with
                       actionType := "input"
                       typ := ["speech", "dtmf"] } } : InputBuilder).DTMF
        = { parent := { actions := [] },
            action := { Action.empty with
                          actionType := "input"
                          typ := ["speech", "dtmf"] } } :=
  ⟨(inputBuilder_speech_dtmf_idempotent _).2.2.2.2.1 (by decide),
   (inputBuilder_speech_dtmf_idempotent _).2.2.2.2.2 (by decide)⟩

end VonageSDK
